import Mathlib

/-!
Shallow embedding of `src/tariff_cpi_app.py`, a single-pass script that loads
a table of category sensitivities, computes per-category estimated CPI change
for a user-chosen tariff change, and renders one bubble marker per category
plus a headline and a sorted summary table.

Python floats are modelled as `ℚ`; every constant in the script is a short
decimal literal, so the arithmetic of the script is represented exactly.
The pandas/streamlit plumbing is modelled by explicit lists and an `Except`
for the one fatal error path (`st.error` + `st.stop` on missing columns).
-/

namespace TariffApp

/-- A cleaned data row: one `CategoryRecord` of the loaded table
(`df` after the coercion on lines 81-84 of the script). -/
structure Row where
  category : String
  preCorr : ℚ
  postImp : ℚ
deriving DecidableEq

/-- `np.sign` on a (rational-modelled) float. -/
def npSign (x : ℚ) : ℚ :=
  if 0 < x then 1 else if x < 0 then -1 else 0

/-- `neutral_threshold = 0.02` (line 132). -/
def neutralThreshold : ℚ := 2 / 100

/-- Lines 133-134: `sign = np.sign(corr)` then zeroed where
`|corr| < neutral_threshold`. -/
def signOf (r : Row) : ℚ :=
  if |r.preCorr| < neutralThreshold then 0 else npSign r.preCorr

/-- Line 136: `df["Estimated CPI change (pp)"] = tariff_change * importance * sign`. -/
def estimatedChangePP (t : ℚ) (r : Row) : ℚ :=
  t * r.postImp * signOf r

/-- Line 139: `max_tariff_magnitude = max(abs(-10.0), abs(10.0))`. -/
def maxTariffMagnitude : ℚ := max |(-10 : ℚ)| |(10 : ℚ)|

/-- Line 140: `max_sensitivity = df["Post-Model Importance (RF)"].max()`,
the maximum of the importance column (0 on an empty table, where pandas
would give NaN and the script would take the `else` branch anyway). -/
def maxSensitivity : List Row → ℚ
  | [] => 0
  | [r] => r.postImp
  | r :: rs => max r.postImp (maxSensitivity rs)

/-- Line 141: `max_possible_impact = max_tariff_magnitude * max_sensitivity`. -/
def maxPossibleImpact (rows : List Row) : ℚ :=
  maxTariffMagnitude * maxSensitivity rows

/-- pandas `Series.clip(lo, hi)` on a single value. -/
def clip (lo hi x : ℚ) : ℚ := min hi (max lo x)

/-- Lines 143-147: `40 + (abs_impact / max_possible_impact).clip(0,1) * 120`
when `max_possible_impact > 0`, else the constant 40. -/
def bubbleSize (rows : List Row) (t : ℚ) (r : Row) : ℚ :=
  if 0 < maxPossibleImpact rows then
    40 + clip 0 1 (|estimatedChangePP t r| / maxPossibleImpact rows) * 120
  else 40

/-- Lines 114-121: the hand-placed category grid. -/
def positions : List (String × (ℚ × ℚ)) :=
  [("Food", (0, 1)), ("Apparel", (1, 1)), ("Transportation", (2, 1)),
   ("Housing", (3/10, 0)), ("Medical", (13/10, 0)),
   ("All Other Services Goods", (23/10, 0))]

/-- Lines 86-93: `emoji_map`. -/
def emojiMap : List (String × String) :=
  [("Transportation", "🚗"), ("Food", "🍎"), ("Housing", "🏠"),
   ("Apparel", "👕"), ("Medical", "🏥"), ("All Other Services Goods", "🧰")]

/-- Lines 95-97: `display_name_map`. -/
def displayNameMap : List (String × String) :=
  [("All Other Services Goods", "Services")]

/-- Lines 156-161: marker color from `direction_color_map` keyed by the sign
of the row's estimated change. -/
def markerColor (est : ℚ) : String :=
  if 0 < est then "#2ca02c" else if est < 0 then "#d62728" else "#7f7f7f"

/-- One rendered scatter marker (one `fig.add_trace` call, lines 151-186). -/
structure Marker where
  category : String
  pos : ℚ × ℚ
  displayName : String
  glyph : String
  color : String
  size : ℚ
deriving DecidableEq

/-- The body of the render loop for one row (lines 151-186): position, display
name and glyph come from the static lookup tables with the literal fallbacks
`(0.0, 0.0)`, the category itself, and `"🔵"`. -/
def mkMarker (rows : List Row) (t : ℚ) (r : Row) : Marker :=
  { category := r.category
    pos := (positions.lookup r.category).getD (0, 0)
    displayName := (displayNameMap.lookup r.category).getD r.category
    glyph := (emojiMap.lookup r.category).getD "🔵"
    color := markerColor (estimatedChangePP t r)
    size := bubbleSize rows t r }

/-- The full render loop: one marker per row of `df`, in order. -/
def renderMarkers (rows : List Row) (t : ℚ) : List Marker :=
  rows.map (mkMarker rows t)

/-- The three headline phrasings of lines 201-206. -/
inductive Headline where
  | up
  | down
  | neutral
deriving DecidableEq

/-- Line 200: `avg_effect = df["Estimated CPI change (pp)"].mean()`
(`ℚ` division by length; 0 on the empty table, where pandas gives NaN and the
script likewise lands in the `neutral` branch). -/
def meanEffect (rows : List Row) (t : ℚ) : ℚ :=
  (rows.map (estimatedChangePP t)).sum / rows.length

/-- Lines 201-206: `avg_effect > 0` → up, `< 0` → down, else neutral. -/
def headlineOf (rows : List Row) (t : ℚ) : Headline :=
  if 0 < meanEffect rows t then .up
  else if meanEffect rows t < 0 then .down
  else .neutral

/-- One row of the "Numbers Behind the Bubbles" table (lines 208-211). -/
structure SummaryRow where
  displayCategory : String
  est : ℚ
  postImp : ℚ
deriving DecidableEq

/-- Line 209: the summary table's category cell
`f"{emoji_map.get(x, '🔵')} {display_name_map.get(x, x)}"`. -/
def mkSummaryRow (t : ℚ) (r : Row) : SummaryRow :=
  { displayCategory :=
      (emojiMap.lookup r.category).getD "🔵" ++ " "
        ++ (displayNameMap.lookup r.category).getD r.category
    est := estimatedChangePP t r
    postImp := r.postImp }

/-- Lines 208-211: map the rows to display form and
`sort_values("Estimated CPI change (pp)", ascending=False)`. -/
def summaryTable (rows : List Row) (t : ℚ) : List SummaryRow :=
  (rows.map (mkSummaryRow t)).mergeSort (fun a b => decide (b.est ≤ a.est))

/-- A raw table cell of one of the two numeric columns: either a value
`pd.to_numeric` can parse, or one it turns into NaN (`errors="coerce"`). -/
inductive Cell where
  | num (q : ℚ)
  | invalid
deriving DecidableEq

/-- Lines 83-84: `pd.to_numeric(col, errors="coerce").fillna(0.0)` on one cell:
an unparseable cell becomes 0.0; the coercion is total. -/
def coerceCell : Cell → ℚ
  | .num q => q
  | .invalid => 0

/-- A raw input row before numeric coercion (the category column is taken
`astype(str)`, so it is already a string). -/
structure RawRow where
  category : String
  preCorr : Cell
  postImp : Cell
deriving DecidableEq

/-- The raw loaded table: its column names and its rows. -/
structure RawTable where
  cols : List String
  rows : List RawRow
deriving DecidableEq

/-- Python's `str.startswith`, modelled on the character lists of the two
strings. -/
def startsWith (s pre : String) : Bool :=
  pre.data.isPrefixOf s.data

/-- Lines 72-73: rename the first column to `"Category"` when it is unnamed
(`startswith("Unnamed")` or the empty string). -/
def renameFirstCol : List String → List String
  | [] => []
  | c :: rest =>
      if startsWith c "Unnamed" || c == "" then "Category" :: rest else c :: rest

/-- Line 75: `needed_cols`. -/
def neededCols : List String :=
  ["Category", "Pre-Model Correlation", "Post-Model Importance (RF)"]

/-- Line 76: `[col for col in needed_cols if col not in raw.columns]`. -/
def missingCols (cols : List String) : List String :=
  neededCols.filter (fun c => !(cols.contains c))

/-- Lines 81-84 applied to one raw row. -/
def cleanRow (r : RawRow) : Row :=
  ⟨r.category, coerceCell r.preCorr, coerceCell r.postImp⟩

/-- Everything the script displays after a successful run: the chart markers,
the headline classification, and the sorted summary table. -/
structure AppOutput where
  markers : List Marker
  headline : Headline
  summary : List SummaryRow
deriving DecidableEq

/-- The script's main path after loading, as a function of the raw table and
the slider value: lines 72-79 (rename, column check, `st.error`/`st.stop`
carrying the missing-column list) then lines 81-211 (coerce, compute,
render). -/
def runApp (tbl : RawTable) (t : ℚ) : Except (List String) AppOutput :=
  let cols := renameFirstCol tbl.cols
  let missing := missingCols cols
  if missing.isEmpty then
    let rows := tbl.rows.map cleanRow
    .ok { markers := renderMarkers rows t
          headline := headlineOf rows t
          summary := summaryTable rows t }
  else
    .error missing

/-- Lines 52-66: the built-in six-row demo table. -/
def demoRaw : RawTable :=
  { cols := neededCols
    rows :=
      [⟨"Transportation", .num (12/100), .num (28/100)⟩,
       ⟨"Food", .num (8/100), .num (21/100)⟩,
       ⟨"Housing", .num (3/100), .num (18/100)⟩,
       ⟨"Apparel", .num (10/100), .num (14/100)⟩,
       ⟨"Medical", .num (2/100), .num (8/100)⟩,
       ⟨"All Other Services Goods", .num (6/100), .num (11/100)⟩] }

/-- The demo table after coercion. -/
def demoRows : List Row := demoRaw.rows.map cleanRow

/-! ## Theorems -/

/-- Evaluation helper: a correlation at or above the neutral threshold gives
sign `+1`. -/
theorem signOf_eq_one {r : Row} (h : neutralThreshold ≤ r.preCorr) :
    signOf r = 1 := by
  have h0 : 0 < r.preCorr := lt_of_lt_of_le (by norm_num [neutralThreshold]) h
  simp only [signOf, npSign]
  rw [abs_of_pos h0, if_neg (not_lt.mpr h), if_pos h0]

/-- C1: for every row and every tariff change, the computed sign is
`np.sign(preModelCorrelation)` except when `|preModelCorrelation| < 0.02`,
where it is 0; `estimatedChangePP = tariffChange * postModelImportance * sign`;
consequently, inside the neutral band `estimatedChangePP` is 0 regardless of
the tariff change and the importance. -/
theorem sign_neutral_band (r : Row) (t : ℚ) :
    signOf r = (if |r.preCorr| < neutralThreshold then 0 else npSign r.preCorr)
      ∧ estimatedChangePP t r = t * r.postImp * signOf r
      ∧ (|r.preCorr| < neutralThreshold → estimatedChangePP t r = 0) := by
  refine ⟨rfl, rfl, fun h => ?_⟩
  simp [estimatedChangePP, signOf, h]

/-- Witness for C1 at a concrete neutral-band row: correlation 0.01 is inside
the band, so the estimated change is 0 even with tariff 9 and importance 7. -/
theorem sign_neutral_band_check :
    estimatedChangePP 9 ⟨"X", 1/100, 7⟩ = 0 :=
  (sign_neutral_band ⟨"X", 1/100, 7⟩ 9).2.2
    (by norm_num [neutralThreshold, abs_lt])

/-- C6: `estimatedChangePP` is linear in the tariff change: doubling the
tariff change exactly doubles the estimated change (sign and importance of the
row held fixed), so the magnitude doubles and the sign is unchanged. -/
theorem estimated_change_linear (r : Row) (t : ℚ) :
    estimatedChangePP (2 * t) r = 2 * estimatedChangePP t r := by
  unfold estimatedChangePP
  ring

/-- C5: the headline classification is exactly the sign trichotomy of the mean
estimated change over all rows: positive mean reports price pressure up,
negative mean down, zero mean neutral. -/
theorem headline_by_mean (rows : List Row) (t : ℚ) :
    (headlineOf rows t = .up ↔ 0 < meanEffect rows t)
      ∧ (headlineOf rows t = .down ↔ meanEffect rows t < 0)
      ∧ (headlineOf rows t = .neutral ↔ meanEffect rows t = 0) := by
  rcases lt_trichotomy (meanEffect rows t) 0 with h | h | h
  · simp [headlineOf, h, not_lt_of_gt h, ne_of_lt h]
  · simp [headlineOf, h]
  · simp [headlineOf, h, not_lt_of_gt h, ne_of_gt h]

/-- C8: on the built-in demo table, with tariff change 2.0 the Transportation
row (correlation 0.12, importance 0.28) has sign +1 and estimated change
0.56; with tariff change −5.0 the Food row (correlation 0.08, importance 0.21)
has sign +1 and estimated change −1.05. -/
theorem demo_examples :
    demoRows
        = [⟨"Transportation", 12/100, 28/100⟩, ⟨"Food", 8/100, 21/100⟩,
           ⟨"Housing", 3/100, 18/100⟩, ⟨"Apparel", 10/100, 14/100⟩,
           ⟨"Medical", 2/100, 8/100⟩, ⟨"All Other Services Goods", 6/100, 11/100⟩]
      ∧ signOf ⟨"Transportation", 12/100, 28/100⟩ = 1
      ∧ estimatedChangePP 2 ⟨"Transportation", 12/100, 28/100⟩ = 56/100
      ∧ signOf ⟨"Food", 8/100, 21/100⟩ = 1
      ∧ estimatedChangePP (-5) ⟨"Food", 8/100, 21/100⟩ = -(105/100) := by
  have hT : signOf ⟨"Transportation", 12/100, 28/100⟩ = 1 :=
    signOf_eq_one (by norm_num [neutralThreshold])
  have hF : signOf ⟨"Food", 8/100, 21/100⟩ = 1 :=
    signOf_eq_one (by norm_num [neutralThreshold])
  refine ⟨rfl, hT, ?_, hF, ?_⟩
  · simp only [estimatedChangePP, hT]
    norm_num
  · simp only [estimatedChangePP, hF]
    norm_num

/-- Helper: when no required column is missing, the script reaches the ok
branch and produces an output. -/
theorem runApp_ok_of_complete (tbl : RawTable) (t : ℚ)
    (h : missingCols (renameFirstCol tbl.cols) = []) :
    ∃ out, runApp tbl t = .ok out := by
  unfold runApp
  rw [if_pos (by simp [h])]
  exact ⟨_, rfl⟩

/-- C3: if any of the three required columns is absent from the loaded table
(after renaming an unnamed first column to `"Category"`), the program halts
with an error carrying exactly the missing columns and produces no output;
if all three are present, the error branch is not taken and output is
produced. -/
theorem missing_columns_halt (tbl : RawTable) (t : ℚ) :
    (missingCols (renameFirstCol tbl.cols) ≠ [] →
        runApp tbl t = .error (missingCols (renameFirstCol tbl.cols))
          ∧ ∀ c ∈ missingCols (renameFirstCol tbl.cols),
              c ∈ neededCols ∧ c ∉ renameFirstCol tbl.cols)
      ∧ (missingCols (renameFirstCol tbl.cols) = [] →
          ∃ out, runApp tbl t = .ok out) := by
  constructor
  · intro h
    constructor
    · unfold runApp
      rw [if_neg]
      simpa [List.isEmpty_iff] using h
    · intro c hc
      simpa [missingCols] using hc
  · exact runApp_ok_of_complete tbl t

/-- A table missing the importance column, for the C3 witness. -/
def truncTbl : RawTable :=
  { cols := ["Category", "Pre-Model Correlation"], rows := [] }

/-- Witness for C3: the two-column table halts with exactly the importance
column reported missing, and the full demo table reaches the ok branch. -/
theorem missing_columns_halt_check :
    runApp truncTbl 2 = .error ["Post-Model Importance (RF)"]
      ∧ ∃ out, runApp demoRaw 2 = .ok out := by
  constructor
  · exact ((missing_columns_halt truncTbl 2).1 (by decide)).1.trans
      (congrArg Except.error (by decide))
  · exact (missing_columns_halt demoRaw 2).2 (by decide)

/-- C4: the rendered markers carry exactly the table's categories, one marker
per row in order; a category absent from the position table gets position
(0, 0), one absent from the emoji table gets the generic glyph, and every
marker's color — for mapped and unmapped categories alike — comes from the
direction-color rule applied to its row's estimated change (the render path
has no category-keyed color lookup). -/
theorem rendered_categories (rows : List Row) (t : ℚ) :
    (renderMarkers rows t).map Marker.category = rows.map Row.category
      ∧ ∀ m ∈ renderMarkers rows t,
          (positions.lookup m.category = none → m.pos = (0, 0))
            ∧ (emojiMap.lookup m.category = none → m.glyph = "🔵")
            ∧ ∃ r ∈ rows, m.category = r.category
                ∧ m.color = markerColor (estimatedChangePP t r)
                ∧ m.size = bubbleSize rows t r := by
  constructor
  · simp [renderMarkers, mkMarker]
  · intro m hm
    obtain ⟨r, hr, rfl⟩ := List.mem_map.mp hm
    refine ⟨fun h => ?_, fun h => ?_, r, hr, rfl, rfl, rfl⟩
    · simp only [mkMarker] at h ⊢
      rw [h]
      rfl
    · simp only [mkMarker] at h ⊢
      rw [h]
      rfl

/-- A row whose category appears in none of the static lookup tables, for the
C4 witness. -/
def mysteryRow : Row := ⟨"Mystery", 5/100, 3/10⟩

/-- Witness for C4 on a one-row table with an unmapped category: the marker
list carries exactly that category, and its marker falls back to position
(0, 0) and the generic glyph. -/
theorem rendered_categories_check :
    (renderMarkers [mysteryRow] 2).map Marker.category = ["Mystery"]
      ∧ (mkMarker [mysteryRow] 2 mysteryRow).pos = (0, 0)
      ∧ (mkMarker [mysteryRow] 2 mysteryRow).glyph = "🔵" := by
  have h := rendered_categories [mysteryRow] 2
  have hm : mkMarker [mysteryRow] 2 mysteryRow ∈ renderMarkers [mysteryRow] 2 := by
    simp [renderMarkers]
  refine ⟨h.1.trans rfl, ?_, ?_⟩
  · exact (h.2 _ hm).1 (by decide)
  · exact (h.2 _ hm).2.1 (by decide)

/-- C7: coercion of the two numeric columns is total — an unparseable cell
becomes 0.0 in the cleaned row — and a table whose columns are all present
still reaches the ok branch whatever its cells hold, so no error is raised
and no notification is emitted for unparseable cells. -/
theorem coercion_silent (tbl : RawTable) (t : ℚ)
    (h : missingCols (renameFirstCol tbl.cols) = []) :
    (∀ r ∈ tbl.rows, r.preCorr = Cell.invalid → (cleanRow r).preCorr = 0)
      ∧ (∀ r ∈ tbl.rows, r.postImp = Cell.invalid → (cleanRow r).postImp = 0)
      ∧ ∃ out, runApp tbl t = .ok out := by
  refine ⟨?_, ?_, ?_⟩
  · intro r _ hr
    simp [cleanRow, hr, coerceCell]
  · intro r _ hr
    simp [cleanRow, hr, coerceCell]
  · exact runApp_ok_of_complete tbl t h

/-- A well-formed table containing an unparseable correlation cell, for the
C7 witness. -/
def badCellTbl : RawTable :=
  { cols := neededCols, rows := [⟨"Widgets", Cell.invalid, Cell.num (1/2)⟩] }

/-- Witness for C7: the unparseable cell cleans to 0 and the table still
renders without any error. -/
theorem coercion_silent_check :
    (cleanRow ⟨"Widgets", Cell.invalid, Cell.num (1/2)⟩).preCorr = 0
      ∧ ∃ out, runApp badCellTbl 2 = .ok out := by
  have h := coercion_silent badCellTbl 2 (by decide)
  exact ⟨h.1 _ (by simp [badCellTbl]) rfl, h.2.2⟩

/-- Helper: every row's importance is bounded by the column maximum. -/
theorem le_maxSensitivity {r : Row} {rows : List Row} (h : r ∈ rows) :
    r.postImp ≤ maxSensitivity rows := by
  induction rows with
  | nil => cases h
  | cons a rs ih =>
    cases rs with
    | nil =>
      have ha : r = a := by simpa using h
      subst ha
      simp [maxSensitivity]
    | cons b rs' =>
      simp only [maxSensitivity]
      rcases List.mem_cons.mp h with h | h
      · subst h
        exact le_max_left _ _
      · exact le_trans (ih h) (le_max_right _ _)

/-- Helper: the slider-extreme magnitude `max(abs(-10.0), abs(10.0))` is 10. -/
theorem maxTariffMagnitude_eq : maxTariffMagnitude = 10 := by
  unfold maxTariffMagnitude
  rw [abs_neg, abs_of_nonneg (by norm_num : (0:ℚ) ≤ 10), max_self]

/-- C2: for a table of nonnegative importances and a tariff change in
[-10, 10], each row's bubble size lies in [40, 160], and it equals 40 exactly
when the row's estimated change is 0 or the maximum importance over the table
is 0. -/
theorem bubble_size_bounds (rows : List Row) (t : ℚ) (r : Row)
    (hr : r ∈ rows) (hpos : ∀ x ∈ rows, 0 ≤ x.postImp)
    (_ht₁ : -10 ≤ t) (_ht₂ : t ≤ 10) :
    40 ≤ bubbleSize rows t r ∧ bubbleSize rows t r ≤ 160
      ∧ (bubbleSize rows t r = 40
          ↔ estimatedChangePP t r = 0 ∨ maxSensitivity rows = 0) := by
  have hms : 0 ≤ maxSensitivity rows :=
    le_trans (hpos r hr) (le_maxSensitivity hr)
  unfold bubbleSize
  by_cases hM : 0 < maxPossibleImpact rows
  · rw [if_pos hM]
    have hms_pos : 0 < maxSensitivity rows := by
      rcases lt_or_eq_of_le hms with h | h
      · exact h
      · exfalso
        rw [maxPossibleImpact, ← h, mul_zero] at hM
        exact lt_irrefl 0 hM
    have hx0 : 0 ≤ |estimatedChangePP t r| / maxPossibleImpact rows :=
      div_nonneg (abs_nonneg _) (le_of_lt hM)
    have hclip0 : 0 ≤ clip 0 1 (|estimatedChangePP t r| / maxPossibleImpact rows) :=
      le_min (by norm_num) (le_max_left 0 _)
    have hclip1 : clip 0 1 (|estimatedChangePP t r| / maxPossibleImpact rows) ≤ 1 :=
      min_le_left _ _
    have h120 : (0:ℚ) ≤ 120 := by norm_num
    refine ⟨by nlinarith, by nlinarith, ?_, ?_⟩
    · intro h40
      left
      have hc0 : clip 0 1 (|estimatedChangePP t r| / maxPossibleImpact rows) * 120 = 0 := by
        linarith
      have hc : clip 0 1 (|estimatedChangePP t r| / maxPossibleImpact rows) = 0 := by
        rcases mul_eq_zero.mp hc0 with h | h
        · exact h
        · norm_num at h
      rw [clip, max_eq_right hx0] at hc
      have hx_eq : |estimatedChangePP t r| / maxPossibleImpact rows = 0 := by
        rcases le_total 1 (|estimatedChangePP t r| / maxPossibleImpact rows) with hle | hle
        · rw [min_eq_left hle] at hc
          exact absurd hc one_ne_zero
        · rw [min_eq_right hle] at hc
          exact hc
      have habs : |estimatedChangePP t r| = 0 := by
        rcases div_eq_zero_iff.mp hx_eq with h | h
        · exact h
        · exact absurd h (ne_of_gt hM)
      exact abs_eq_zero.mp habs
    · intro hor
      rcases hor with h0 | h0
      · rw [h0]
        norm_num [clip]
      · exact absurd h0 (ne_of_gt hms_pos)
  · rw [if_neg hM]
    have hms0 : maxSensitivity rows = 0 := by
      have h10 : maxPossibleImpact rows = 10 * maxSensitivity rows := by
        rw [maxPossibleImpact, maxTariffMagnitude_eq]
      have := not_lt.mp hM
      rw [h10] at this
      linarith
    exact ⟨le_refl 40, by norm_num, fun _ => Or.inr hms0, fun _ => rfl⟩

/-- Witness for C2 at the demo table's Transportation row with tariff 2. -/
theorem bubble_size_bounds_check :
    40 ≤ bubbleSize demoRows 2 ⟨"Transportation", 12/100, 28/100⟩
      ∧ bubbleSize demoRows 2 ⟨"Transportation", 12/100, 28/100⟩ ≤ 160
      ∧ (bubbleSize demoRows 2 ⟨"Transportation", 12/100, 28/100⟩ = 40
          ↔ estimatedChangePP 2 ⟨"Transportation", 12/100, 28/100⟩ = 0
            ∨ maxSensitivity demoRows = 0) := by
  refine bubble_size_bounds demoRows 2 _ (List.mem_cons_self _ _) ?_
    (by norm_num) (by norm_num)
  intro x hx
  simp only [demoRows, demoRaw, cleanRow, coerceCell, List.map_cons,
    List.map_nil, List.mem_cons, List.not_mem_nil, or_false] at hx
  rcases hx with rfl | rfl | rfl | rfl | rfl | rfl <;> norm_num

/-- C9: the emitted summary table is a permutation of the per-row summary
records (display category, estimated change, importance) of the loaded table,
and it is sorted in descending order of estimated change. -/
theorem summary_sorted (rows : List Row) (t : ℚ) :
    (summaryTable rows t).Perm (rows.map (mkSummaryRow t))
      ∧ (summaryTable rows t).Pairwise (fun a b => b.est ≤ a.est) := by
  constructor
  · exact List.mergeSort_perm _ _
  · unfold summaryTable
    refine List.Pairwise.imp ?_
      (List.sorted_mergeSort ?_ ?_ (rows.map (mkSummaryRow t)))
    · intro a b hab
      simpa using hab
    · intro a b c h₁ h₂
      simp only [decide_eq_true_eq] at h₁ h₂ ⊢
      exact le_trans h₂ h₁
    · intro a b
      simpa using le_total b.est a.est

/-- C10: within one run (same table, same tariff change), the bubble size is
monotone nondecreasing in the absolute estimated change. -/
theorem bubble_size_monotone (rows : List Row) (t : ℚ) (a b : Row)
    (h : |estimatedChangePP t b| ≤ |estimatedChangePP t a|) :
    bubbleSize rows t b ≤ bubbleSize rows t a := by
  unfold bubbleSize
  by_cases hM : 0 < maxPossibleImpact rows
  · rw [if_pos hM, if_pos hM]
    have hdiv : |estimatedChangePP t b| / maxPossibleImpact rows
        ≤ |estimatedChangePP t a| / maxPossibleImpact rows :=
      (div_le_div_iff_of_pos_right hM).mpr h
    have hclip : clip 0 1 (|estimatedChangePP t b| / maxPossibleImpact rows)
        ≤ clip 0 1 (|estimatedChangePP t a| / maxPossibleImpact rows) :=
      min_le_min (le_refl 1) (max_le_max (le_refl 0) hdiv)
    have := mul_le_mul_of_nonneg_right hclip (show (0:ℚ) ≤ 120 by norm_num)
    linarith
  · rw [if_neg hM, if_neg hM]

/-- Witness for C10 on the demo table with tariff 2: the Food bubble
(estimated change 0.42) is no larger than the Transportation bubble
(estimated change 0.56). -/
theorem bubble_size_monotone_check :
    bubbleSize demoRows 2 ⟨"Food", 8/100, 21/100⟩
      ≤ bubbleSize demoRows 2 ⟨"Transportation", 12/100, 28/100⟩ := by
  refine bubble_size_monotone demoRows 2 _ _ ?_
  have hsT : signOf ⟨"Transportation", 12/100, 28/100⟩ = 1 :=
    signOf_eq_one (by norm_num [neutralThreshold])
  have hsF : signOf ⟨"Food", 8/100, 21/100⟩ = 1 :=
    signOf_eq_one (by norm_num [neutralThreshold])
  have hT : estimatedChangePP 2 ⟨"Transportation", 12/100, 28/100⟩ = 56/100 := by
    simp only [estimatedChangePP, hsT]
    norm_num
  have hF : estimatedChangePP 2 ⟨"Food", 8/100, 21/100⟩ = 42/100 := by
    simp only [estimatedChangePP, hsF]
    norm_num
  rw [hT, hF, abs_of_nonneg (by norm_num : (0:ℚ) ≤ 42/100),
    abs_of_nonneg (by norm_num : (0:ℚ) ≤ 56/100)]
  norm_num

end TariffApp
